import Mathlib

/-!
Verification of the ExAttr NIF gateway (src/native/ex_attr_nif/src/lib.rs):
a thin marshalling layer over OS extended-attribute (xattr) primitives.
The error classifier `io_error_to_atom` and the five NIF wrappers
(`supported_platform`, `get_xattr`, `set_xattr`, `list_xattr`,
`remove_xattr`) are embedded directly from the Rust source; the external
`xattr` crate (the OS layer, not part of src/) is modelled from the spec.
-/

namespace ExAttr

/-- Attribute values are opaque byte sequences (`Vec<u8>` in the source). -/
abbrev ByteSeq := List Nat

/-- The fragment of `std::io::ErrorKind` the source inspects: the only
comparison made is against `ErrorKind::Unsupported`. -/
inductive ErrorKind where
  | unsupported : ErrorKind
  | otherKind : ErrorKind
  deriving DecidableEq

/-- Embedding of `std::io::Error` as used by the source: an optional raw OS
error code (`raw_os_error()`), a kind (`kind()`), and the textual
description produced by `to_string()`. -/
structure IOError where
  raw_os_error : Option Int
  kind : ErrorKind
  message : String
  deriving DecidableEq

namespace Errno

/-- Raw value of `rustix::io::Errno::TOOBIG` (E2BIG) on Linux. -/
def TOOBIG : Int := 7

/-- Raw value of `rustix::io::Errno::ACCESS` (EACCES) on Linux. -/
def ACCESS : Int := 13

/-- Raw value of `rustix::io::Errno::INVAL` (EINVAL) on Linux. -/
def INVAL : Int := 22

/-- Raw value of `rustix::io::Errno::IO` (EIO) on Linux. -/
def IOERR : Int := 5

/-- Raw value of `rustix::io::Errno::NODATA` (ENODATA) on Linux. -/
def NODATA : Int := 61

/-- Raw value of `rustix::io::Errno::NOENT` (ENOENT) on Linux. -/
def NOENT : Int := 2

/-- Raw value of `rustix::io::Errno::NOMEM` (ENOMEM) on Linux. -/
def NOMEM : Int := 12

/-- Raw value of `rustix::io::Errno::NOSPC` (ENOSPC) on Linux. -/
def NOSPC : Int := 28

/-- Raw value of `rustix::io::Errno::PERM` (EPERM) on Linux. -/
def PERM : Int := 1

/-- Raw value of `rustix::io::Errno::ROFS` (EROFS) on Linux. -/
def ROFS : Int := 30

/-- Raw value of `rustix::io::Errno::NOTSUP` (EOPNOTSUPP) on Linux. -/
def NOTSUP : Int := 95

end Errno

/-- Embedding of `io_error_to_atom`: classify an `io::Error`.  On `Ok` the
result will be encoded as an atom (a static string); on `Err` as a string
message.  Matching `Errno::from_raw_os_error(code)` against the named
`Errno` constants compares the raw code against each constant's value. -/
def io_error_to_atom (err : IOError) : Except String String :=
  match err.raw_os_error with
  | some code =>
      if code = Errno.TOOBIG then Except.ok "e2big"
      else if code = Errno.ACCESS then Except.ok "eacces"
      else if code = Errno.INVAL then Except.ok "einval"
      else if code = Errno.IOERR then Except.ok "eio"
      else if code = Errno.NODATA then Except.ok "enodata"
      else if code = Errno.NOENT then Except.ok "enoent"
      else if code = Errno.NOMEM then Except.ok "enomem"
      else if code = Errno.NOSPC then Except.ok "enospc"
      else if code = Errno.PERM then Except.ok "eperm"
      else if code = Errno.ROFS then Except.ok "erofs"
      else if code = Errno.NOTSUP then Except.ok "enotsup"
      else Except.error err.message
  | none =>
      if err.kind = ErrorKind.unsupported then Except.ok "enotsup"
      else Except.error err.message

/-- Embedding of `rustler::Error` as used by the source: `Error::Atom` with
a static atom name, or `Error::Term` boxing a string message. -/
inductive NifError where
  | atom : String → NifError
  | term : String → NifError
  deriving DecidableEq

/-- The error-wrapping match repeated in each NIF:
`Ok(atom_str) => Err(Error::Atom(atom_str)); Err(msg) => Err(Error::Term(msg))`. -/
def wrap_io_error (e : IOError) : NifError :=
  match io_error_to_atom e with
  | Except.ok s => NifError.atom s
  | Except.error m => NifError.term m

/-- Embedding of `std::ffi::OsString` as the source uses it: either valid
unicode text (on which `into_string` succeeds) or undecodable raw bytes. -/
inductive OsString where
  | valid : String → OsString
  | invalid : List Nat → OsString
  deriving DecidableEq

/-- `attr.into_string().map_err(|_| Error::Term("Failed to convert OsString"))`
applied to one attribute name in `list_xattr`. -/
def OsString.into_string : OsString → Except NifError String
  | OsString.valid s => Except.ok s
  | OsString.invalid _ => Except.error (NifError.term "Failed to convert OsString")

/-- Rust's `collect::<NifResult<Vec<String>>>()` over the decoded names:
stops at the first decoding error, otherwise gathers all names in order. -/
def collect_names : List OsString → Except NifError (List String)
  | [] => Except.ok []
  | a :: rest =>
      match a.into_string with
      | Except.error e => Except.error e
      | Except.ok s =>
          match collect_names rest with
          | Except.error e => Except.error e
          | Except.ok ss => Except.ok (s :: ss)

/-- Embedding of the NIF `get_xattr`, as a function of the OS call's
outcome (`xattr::get(path, name)`): `Ok(Some(v))` and `Ok(None)` pass
through; `Err(e)` is classified. -/
def get_xattr (osResult : Except IOError (Option ByteSeq)) :
    Except NifError (Option ByteSeq) :=
  match osResult with
  | Except.ok v => Except.ok v
  | Except.error e => Except.error (wrap_io_error e)

/-- Embedding of the NIF `set_xattr`, as a function of the OS call's
outcome (`xattr::set(path, name, value)`): success yields the atom `ok`;
failure is classified. -/
def set_xattr (osResult : Except IOError Unit) : Except NifError String :=
  match osResult with
  | Except.ok _ => Except.ok "ok"
  | Except.error e => Except.error (wrap_io_error e)

/-- Embedding of the NIF `list_xattr`, as a function of the OS call's
outcome (`xattr::list(path)`, an iterator of `OsString` names): on success
each name is decoded and collected; failure is classified. -/
def list_xattr (osResult : Except IOError (List OsString)) :
    Except NifError (List String) :=
  match osResult with
  | Except.ok attrs => collect_names attrs
  | Except.error e => Except.error (wrap_io_error e)

/-- Embedding of the NIF `remove_xattr`, as a function of the OS call's
outcome (`xattr::remove(path, name)`): success yields the atom `ok`;
failure is classified. -/
def remove_xattr (osResult : Except IOError Unit) : Except NifError String :=
  match osResult with
  | Except.ok _ => Except.ok "ok"
  | Except.error e => Except.error (wrap_io_error e)

/-- Embedding of the NIF `supported_platform`: returns the `xattr` crate's
compile-time constant `SUPPORTED_PLATFORM` for the current build.  The Rust
signature is a plain `bool` — there is no error channel in the type.  The
build constant enters as the parameter. -/
def supported_platform (SUPPORTED_PLATFORM : Bool) : Bool :=
  SUPPORTED_PLATFORM

/-- Modelled from the spec: the OS extended-attribute store, owned by the
OS / the external `xattr` crate (not in src/): a map from path and
attribute name to the optional byte value currently set. -/
abbrev XStore := String → String → Option ByteSeq

/-- Modelled from the spec: `xattr::get` on a successful OS call returns
the value when present and `None` when the attribute is absent — absence
is not an error at this layer. -/
def os_get (st : XStore) (p n : String) : Except IOError (Option ByteSeq) :=
  Except.ok (st p n)

/-- Modelled from the spec: `xattr::set` on a successful OS call creates
or overwrites the named attribute with the given byte value. -/
def os_set (st : XStore) (p n : String) (v : ByteSeq) :
    Except IOError Unit × XStore :=
  (Except.ok (), fun p2 n2 => if p2 = p ∧ n2 = n then some v else st p2 n2)

/-- Modelled from the spec: the ENODATA `io::Error` the OS reports when
removing an attribute that does not exist. -/
def enodata_error : IOError :=
  { raw_os_error := some Errno.NODATA
  , kind := ErrorKind.otherKind
  , message := "No data available (os error 61)" }

/-- Modelled from the spec: `xattr::remove` deletes the named attribute;
removing a non-existent attribute is itself a failure surfaced via the OS
(ENODATA), not suppressed. -/
def os_remove (st : XStore) (p n : String) : Except IOError XStore :=
  match st p n with
  | some _ =>
      Except.ok (fun p2 n2 => if p2 = p ∧ n2 = n then none else st p2 n2)
  | none => Except.error enodata_error

/-- The gateway's `get` composed with the OS model. -/
def gateway_get (st : XStore) (p n : String) :
    Except NifError (Option ByteSeq) :=
  get_xattr (os_get st p n)

/-- The gateway's `set` composed with the OS model; returns the caller's
result and the updated store. -/
def gateway_set (st : XStore) (p n : String) (v : ByteSeq) :
    Except NifError String × XStore :=
  (set_xattr (os_set st p n v).1, (os_set st p n v).2)

/-- The gateway's `remove` composed with the OS model; returns the
caller's result and the (possibly updated) store. -/
def gateway_remove (st : XStore) (p n : String) :
    Except NifError String × XStore :=
  match os_remove st p n with
  | Except.ok st2 => (remove_xattr (Except.ok ()), st2)
  | Except.error e => (remove_xattr (Except.error e), st)

/-- The fixed code-to-tag table, transcribed from the spec's words, to be
compared with the classifier embedded from the source. -/
def errno_table : List (Int × String) :=
  [ (Errno.TOOBIG, "e2big")
  , (Errno.ACCESS, "eacces")
  , (Errno.INVAL, "einval")
  , (Errno.IOERR, "eio")
  , (Errno.NODATA, "enodata")
  , (Errno.NOENT, "enoent")
  , (Errno.NOMEM, "enomem")
  , (Errno.NOSPC, "enospc")
  , (Errno.PERM, "eperm")
  , (Errno.ROFS, "erofs")
  , (Errno.NOTSUP, "enotsup") ]

/-- The closed eleven-element vocabulary of symbolic error atoms. -/
def closed_vocab : List String :=
  [ "e2big", "eacces", "einval", "eio", "enodata", "enoent"
  , "enomem", "enospc", "eperm", "erofs", "enotsup" ]

/-- A caller-facing error is in the closed vocabulary: a symbolic atom
from the eleven-element set, or a term carrying a string message. -/
def in_closed_vocab (err : NifError) : Prop :=
  (∃ s, err = NifError.atom s ∧ s ∈ closed_vocab) ∨
  (∃ m, err = NifError.term m)

/-- Text carried by a decodable name (default `""` on undecodable ones,
used only under an all-decodable hypothesis). -/
def os_str_text : OsString → String
  | OsString.valid s => s
  | OsString.invalid _ => ""

end ExAttr

namespace ExAttr

theorem collect_names_invalid (names : List OsString) (bs : List Nat)
    (h : OsString.invalid bs ∈ names) :
    collect_names names =
      Except.error (NifError.term "Failed to convert OsString") := by
  induction names with
  | nil => cases h
  | cons a rest ih =>
    cases a with
    | invalid bs2 => simp [collect_names, OsString.into_string]
    | valid s =>
      have hr : OsString.invalid bs ∈ rest := by
        rcases List.mem_cons.mp h with hh | ht
        · simp at hh
        · exact ht
      simp [collect_names, OsString.into_string, ih hr]

theorem collect_names_error (names : List OsString) (err : NifError)
    (h : collect_names names = Except.error err) :
    err = NifError.term "Failed to convert OsString" := by
  induction names with
  | nil => simp [collect_names] at h
  | cons a rest ih =>
    cases a with
    | invalid bs =>
      simp [collect_names, OsString.into_string] at h
      exact h.symm
    | valid s =>
      simp only [collect_names, OsString.into_string] at h
      cases hr : collect_names rest with
      | error e2 =>
        rw [hr] at h
        injection h with h2
        subst h2
        exact ih hr
      | ok ss =>
        rw [hr] at h
        simp at h

theorem collect_names_all_valid (names : List OsString)
    (h : ∀ a ∈ names, ∃ s, a = OsString.valid s) :
    collect_names names = Except.ok (names.map os_str_text) := by
  induction names with
  | nil => rfl
  | cons a rest ih =>
    obtain ⟨s, hs⟩ := h a (List.mem_cons_self a rest)
    subst hs
    have hr := ih (fun b hb => h b (List.mem_cons_of_mem _ hb))
    simp [collect_names, OsString.into_string, hr, os_str_text]

set_option maxHeartbeats 1600000 in
theorem wrap_io_error_in_vocab (e : IOError) :
    in_closed_vocab (wrap_io_error e) := by
  unfold wrap_io_error
  cases hcl : io_error_to_atom e with
  | error m => exact Or.inr ⟨m, rfl⟩
  | ok s =>
    left
    refine ⟨s, rfl, ?_⟩
    cases hro : e.raw_os_error with
    | none =>
      by_cases hk : e.kind = ErrorKind.unsupported
      · simp [io_error_to_atom, hro, hk] at hcl
        subst hcl
        decide
      · simp [io_error_to_atom, hro, hk] at hcl
    | some c =>
      simp only [io_error_to_atom, hro] at hcl
      split_ifs at hcl <;> (injection hcl with h2; subst h2; decide)

end ExAttr

namespace ExAttr

/-- C1: the error classifier is a total function of the native numeric
code: each of the eleven recognized codes maps to exactly its documented
symbolic tag, and any code outside the table yields the descriptive-message
fallback carrying the OS's own textual description. -/
theorem io_error_to_atom_table (e : IOError) (c : Int)
    (h : e.raw_os_error = some c) :
    (∀ t, (c, t) ∈ errno_table → io_error_to_atom e = Except.ok t) ∧
    (c ∉ errno_table.map Prod.fst →
      io_error_to_atom e = Except.error e.message) := by
  constructor
  · intro t ht
    simp only [errno_table, List.mem_cons, List.not_mem_nil, or_false,
      Prod.mk.injEq] at ht
    rcases ht with ⟨h1, h2⟩|⟨h1, h2⟩|⟨h1, h2⟩|⟨h1, h2⟩|⟨h1, h2⟩|⟨h1, h2⟩|⟨h1, h2⟩|⟨h1, h2⟩|⟨h1, h2⟩|⟨h1, h2⟩|⟨h1, h2⟩ <;>
      (subst h1; subst h2;
       simp [io_error_to_atom, h, Errno.TOOBIG, Errno.ACCESS, Errno.INVAL,
         Errno.IOERR, Errno.NODATA, Errno.NOENT, Errno.NOMEM, Errno.NOSPC,
         Errno.PERM, Errno.ROFS, Errno.NOTSUP])
  · intro hn
    simp only [errno_table, List.map_cons, List.map_nil, List.mem_cons,
      List.not_mem_nil, or_false, not_or] at hn
    obtain ⟨h1, h2, h3, h4, h5, h6, h7, h8, h9, h10, h11⟩ := hn
    simp only [io_error_to_atom, h]
    rw [if_neg h1, if_neg h2, if_neg h3, if_neg h4, if_neg h5, if_neg h6,
      if_neg h7, if_neg h8, if_neg h9, if_neg h10, if_neg h11]

/-- C1 witness: concrete classifier runs, in-table (ENODATA = 61) and
out-of-table (code 99). -/
theorem io_error_to_atom_table_witness :
    io_error_to_atom
      { raw_os_error := some 61, kind := ErrorKind.otherKind, message := "m" }
        = Except.ok "enodata" ∧
    io_error_to_atom
      { raw_os_error := some 99, kind := ErrorKind.otherKind,
        message := "weird" }
        = Except.error "weird" :=
  ⟨(io_error_to_atom_table _ 61 rfl).1 "enodata" (by decide),
   (io_error_to_atom_table _ 99 rfl).2 (by decide)⟩

/-- C2: when no attribute `n` exists on `p`, get returns the absent marker
(`Ok(None)`), never an error of any kind — in particular never a classified
failure tagged `enodata`. -/
theorem get_absent_returns_none (st : XStore) (p n : String)
    (h : st p n = none) :
    gateway_get st p n = Except.ok none := by
  simp [gateway_get, get_xattr, os_get, h]

/-- C2 witness: get on an empty store returns the absent marker. -/
theorem get_absent_returns_none_witness :
    ((fun _ _ => none : XStore) "f.txt" "user.a" = none) ∧
    gateway_get (fun _ _ => none) "f.txt" "user.a" = Except.ok none :=
  ⟨rfl, get_absent_returns_none (fun _ _ => none) "f.txt" "user.a" rfl⟩

/-- C3: an undecodable name in the OS listing makes the whole list call
fail with the fixed descriptive decoding-error message — no partial list,
and never a numeric-code symbolic tag. -/
theorem list_undecodable_aborts (names : List OsString) (bs : List Nat)
    (h : OsString.invalid bs ∈ names) :
    list_xattr (Except.ok names) =
      Except.error (NifError.term "Failed to convert OsString") := by
  simpa [list_xattr] using collect_names_invalid names bs h

/-- C3 witness: a listing containing one undecodable name aborts whole,
with no partial result. -/
theorem list_undecodable_aborts_witness :
    (OsString.invalid [255] ∈
      [OsString.valid "user.a", OsString.invalid [255]]) ∧
    list_xattr
        (Except.ok [OsString.valid "user.a", OsString.invalid [255]]) =
      Except.error (NifError.term "Failed to convert OsString") :=
  ⟨by decide,
   list_undecodable_aborts [OsString.valid "user.a", OsString.invalid [255]]
     [255] (by decide)⟩

/-- C4: a failure carrying no numeric code classifies as `enotsup` exactly
when its kind is Unsupported; any other codeless failure yields the
descriptive-message fallback. -/
theorem codeless_classification (e : IOError)
    (h : e.raw_os_error = none) :
    (e.kind = ErrorKind.unsupported →
      io_error_to_atom e = Except.ok "enotsup") ∧
    (e.kind ≠ ErrorKind.unsupported →
      io_error_to_atom e = Except.error e.message) := by
  constructor <;> intro hk <;> simp [io_error_to_atom, h, hk]

/-- C4 witness: concrete codeless failures, Unsupported and not. -/
theorem codeless_classification_witness :
    io_error_to_atom
      { raw_os_error := none, kind := ErrorKind.unsupported, message := "u" }
        = Except.ok "enotsup" ∧
    io_error_to_atom
      { raw_os_error := none, kind := ErrorKind.otherKind, message := "o" }
        = Except.error "o" :=
  ⟨(codeless_classification _ rfl).1 rfl,
   (codeless_classification _ rfl).2 (by decide)⟩

/-- C5: `supported_platform` is a pure total function of the build
constant: it cannot fail (its type has no error channel), and every call
within one build/OS combination returns the same boolean. -/
theorem supported_platform_pure_stable (sp : Bool) :
    supported_platform sp = sp ∧
    ∀ r1 r2, supported_platform sp = r1 → supported_platform sp = r2 →
      r1 = r2 := by
  refine ⟨rfl, ?_⟩
  intro r1 r2 h1 h2
  rw [← h1, ← h2]

/-- C5 witness: concrete build constant. -/
theorem supported_platform_pure_stable_witness :
    supported_platform true = true ∧ (true : Bool) = true :=
  ⟨(supported_platform_pure_stable true).1,
   (supported_platform_pure_stable true).2 true true rfl rfl⟩

/-- C6: round-trip — a successful set followed by get returns exactly the
written bytes. -/
theorem set_get_roundtrip (st : XStore) (p n : String) (v : ByteSeq) :
    (gateway_set st p n v).1 = Except.ok "ok" ∧
    gateway_get (gateway_set st p n v).2 p n = Except.ok (some v) := by
  constructor
  · rfl
  · simp [gateway_get, gateway_set, get_xattr, os_get, os_set]

/-- C7: setting the same value twice leaves get = v; set then remove then
get returns the absent marker, with the OS calls succeeding. -/
theorem set_idempotent_remove_cancels (st : XStore) (p n : String)
    (v : ByteSeq) :
    gateway_get (gateway_set (gateway_set st p n v).2 p n v).2 p n =
      Except.ok (some v) ∧
    (gateway_remove (gateway_set st p n v).2 p n).1 = Except.ok "ok" ∧
    gateway_get (gateway_remove (gateway_set st p n v).2 p n).2 p n =
      Except.ok none := by
  refine ⟨?_, ?_, ?_⟩ <;>
    simp [gateway_get, gateway_set, gateway_remove, get_xattr, remove_xattr,
      os_get, os_set, os_remove]

/-- C8: removing a non-existent attribute is a classified failure (the
ENODATA error the OS reports surfaces as the `enodata` atom), never
converted into a success marker. -/
theorem remove_absent_is_error (st : XStore) (p n : String)
    (h : st p n = none) :
    (gateway_remove st p n).1 = Except.error (NifError.atom "enodata") ∧
    ∀ r, (gateway_remove st p n).1 ≠ Except.ok r := by
  have h1 : (gateway_remove st p n).1 =
      Except.error (wrap_io_error enodata_error) := by
    simp [gateway_remove, os_remove, h, remove_xattr]
  have h2 : wrap_io_error enodata_error = NifError.atom "enodata" := by
    decide
  refine ⟨by rw [h1, h2], ?_⟩
  intro r hr
  rw [h1] at hr
  exact Except.noConfusion hr

/-- C8 witness: remove on an empty store fails with `enodata`. -/
theorem remove_absent_is_error_witness :
    ((fun _ _ => none : XStore) "f.txt" "user.a" = none) ∧
    (gateway_remove (fun _ _ => none) "f.txt" "user.a").1 =
      Except.error (NifError.atom "enodata") :=
  ⟨rfl, (remove_absent_is_error (fun _ _ => none) "f.txt" "user.a" rfl).1⟩

/-- C9: closed error vocabulary — every error any of the four fallible
operations returns to the caller is either a symbolic atom drawn from the
eleven-element set or a term carrying a string message. -/
theorem closed_error_vocabulary :
    (∀ r err, get_xattr r = Except.error err → in_closed_vocab err) ∧
    (∀ r err, set_xattr r = Except.error err → in_closed_vocab err) ∧
    (∀ r err, list_xattr r = Except.error err → in_closed_vocab err) ∧
    (∀ r err, remove_xattr r = Except.error err → in_closed_vocab err) := by
  refine ⟨?_, ?_, ?_, ?_⟩
  · intro r err hr
    cases r with
    | ok v => simp [get_xattr] at hr
    | error e =>
      simp only [get_xattr] at hr
      injection hr with h2
      subst h2
      exact wrap_io_error_in_vocab e
  · intro r err hr
    cases r with
    | ok v => simp [set_xattr] at hr
    | error e =>
      simp only [set_xattr] at hr
      injection hr with h2
      subst h2
      exact wrap_io_error_in_vocab e
  · intro r err hr
    cases r with
    | ok names =>
      simp only [list_xattr] at hr
      exact Or.inr ⟨"Failed to convert OsString",
        collect_names_error names err hr⟩
    | error e =>
      simp only [list_xattr] at hr
      injection hr with h2
      subst h2
      exact wrap_io_error_in_vocab e
  · intro r err hr
    cases r with
    | ok v => simp [remove_xattr] at hr
    | error e =>
      simp only [remove_xattr] at hr
      injection hr with h2
      subst h2
      exact wrap_io_error_in_vocab e

/-- C9 witness: a concrete classified failure from get (EACCES = 13) lies
in the closed vocabulary. -/
theorem closed_error_vocabulary_witness :
    in_closed_vocab (NifError.atom "eacces") :=
  closed_error_vocabulary.1
    (Except.error
      { raw_os_error := some 13, kind := ErrorKind.otherKind,
        message := "m" })
    (NifError.atom "eacces") rfl

/-- C10: when every OS-returned name decodes as valid text, list returns
the decoded names in exactly the OS order — none added, dropped, or
reordered. -/
theorem list_preserves_order (names : List OsString)
    (h : ∀ a ∈ names, ∃ s, a = OsString.valid s) :
    list_xattr (Except.ok names) = Except.ok (names.map os_str_text) := by
  simpa [list_xattr] using collect_names_all_valid names h

/-- C10 witness: a concrete two-name decodable listing is returned in OS
order. -/
theorem list_preserves_order_witness :
    list_xattr
        (Except.ok [OsString.valid "user.a", OsString.valid "user.b"]) =
      Except.ok ["user.a", "user.b"] :=
  list_preserves_order [OsString.valid "user.a", OsString.valid "user.b"]
    (by
      intro a ha
      simp only [List.mem_cons, List.not_mem_nil, or_false] at ha
      rcases ha with h | h <;> exact ⟨_, h⟩)

end ExAttr
